import Mathlib

/-!
Verification development for `scripts/deps-analyze.py` (rsketch repository).

The script is a dependency-freshness analyzer: it shells out to
`cargo outdated` and `go list -u -m all`, parses their output, classifies
each version bump (major/minor/patch/other/unknown) and aggregates a report.

This file gives a shallow embedding of the script.  Pure helpers
(`parse_version`, `determine_semver_change`, the per-line / per-entry
processing loops) are translated directly into Lean functions over
`String` / `List Char`; the interactions with external processes, the
clock and the file system are modelled by explicit outcome values fed to
the embedded functions; Python exceptions that the source can raise and
does not catch are modelled with `Except`.
-/

/-! ## Python string primitives used by the script -/

/-- The characters Python's `str.strip()` and the regex class `\s` treat as
whitespace (for the ASCII range relevant here). -/
def isPySpace (c : Char) : Bool :=
  c = ' ' || c = '\t' || c = '\n' || c = '\r' || c = '\x0b' || c = '\x0c'

/-- Python `version.lstrip('v')`: removes ALL leading `'v'` characters
(`lstrip` takes a character set, not a prefix). -/
def pyLstripV (s : List Char) : List Char := s.dropWhile (· = 'v')

/-- Python `s.strip()`: remove leading and trailing whitespace. -/
def pyStrip (s : String) : String :=
  String.mk (((s.data.dropWhile isPySpace).reverse.dropWhile isPySpace).reverse)

/-- Python `s.split(sep)` for a one-character separator: always returns at
least one (possibly empty) segment; `"".split('.') = [""]`. -/
def pySplitChar (sep : Char) : List Char → List (List Char)
  | [] => [[]]
  | c :: rest =>
    let r := pySplitChar sep rest
    if c = sep then [] :: r
    else
      match r with
      | h :: t => (c :: h) :: t
      | [] => [[c]]

/-- Python `s.split(sep)` on `String`s. -/
def pySplit (sep : Char) (s : String) : List String :=
  (pySplitChar sep s.data).map String.mk

/-- Numeric value of a run of decimal digits (Python `int` on a digit
string; leading zeros are fine). -/
def digitsVal (ds : List Char) : Nat :=
  ds.foldl (fun n c => n * 10 + (c.toNat - 48)) 0

/-! ## Version classifier (`DependencyAnalyzer.parse_version`,
`DependencyAnalyzer.determine_semver_change`) -/

/-- One iteration of the segment loop in `parse_version`:
`re.match(r'(\d+)', part)` takes the leading run of digits; if there is
none the segment defaults to 0.  (`int` on a digit run cannot fail, so the
`except` arm of the source is unreachable.) -/
def parseSegment (part : List Char) : Nat :=
  let digits := part.takeWhile Char.isDigit
  if digits.isEmpty then 0 else digitsVal digits

/-- `DependencyAnalyzer.parse_version`: `version.lstrip('v')`, split on
`'.'`, keep the first three segments, parse each segment's leading digit
run (default 0), pad with zeros to length 3.  `pySplitChar` returns at
least one segment, so the `[]` arm is unreachable and the padding loop of
the source is realized by the three remaining arms. -/
def parse_version (version : String) : Nat × Nat × Nat :=
  let v := pyLstripV version.data
  let parts := (pySplitChar '.' v).take 3
  let nums := parts.map parseSegment
  match nums with
  | [] => (0, 0, 0)
  | [a] => (a, 0, 0)
  | [a, b] => (a, b, 0)
  | a :: b :: c :: _ => (a, b, c)

/-- `DependencyAnalyzer.determine_semver_change`: compare the parsed
3-tuples positionally.  `parse_version` is total, so the source's
`except: return "unknown"` arm is unreachable. -/
def determine_semver_change (current latest : String) : String :=
  let c := parse_version current
  let l := parse_version latest
  if c.1 ≠ l.1 then "major"
  else if c.2.1 ≠ l.2.1 then "minor"
  else if c.2.2 ≠ l.2.2 then "patch"
  else "other"

/-! ## Data model: update records and per-ecosystem results -/

/-- The `update_info` dictionary appended by both probes.  The cargo probe
sets `kind` (defaulting to `"unknown"`); the go probe omits the key, which
we model as `none`. -/
structure UpdateRecord where
  name : String
  current : String
  latest : String
  change_type : String
  kind : Option String
deriving DecidableEq

/-- The success-shaped per-ecosystem result dictionary.  The cargo probe
additionally carries an (always empty) `security_advisories` list and the
go probe a `module_path` string; both are inert and modelled as `Option`
fields so that each probe's dictionary keeps its exact set of keys. -/
structure EcosystemResult where
  module_path : Option String := none
  total_deps : Nat
  outdated_count : Nat
  updates : List UpdateRecord
  security_advisories : Option (List UpdateRecord) := none
deriving DecidableEq

/-- A probe's return value: either the success dictionary or the
`{"error": msg}` dictionary. -/
inductive ProbeResult where
  | ok (r : EcosystemResult)
  | error (msg : String)
deriving DecidableEq

/-- `result.get("outdated_count", 0)` as used by `generate_report` on a
probe result (an error dictionary has no `outdated_count` key). -/
def ProbeResult.outdatedCountD : ProbeResult → Nat
  | .ok r => r.outdated_count
  | .error _ => 0

/-- `result.get("updates", [])` as used by `has_major_updates` (an error
dictionary has no `updates` key). -/
def ProbeResult.updatesD : ProbeResult → List UpdateRecord
  | .ok r => r.updates
  | .error _ => []

/-- The Python exceptions this script can raise past its own handlers. -/
inductive PyExc where
  | keyError (key : String)
  | calledProcessError
  | oSError (msg : String)
deriving DecidableEq

/-! ## Command runner (`DependencyAnalyzer.run_command`) -/

/-- Outcome of `subprocess.run(cmd, ..., timeout=30)`: the process
completed (with some exit code and captured streams), the 30-second
timeout expired (`subprocess.TimeoutExpired`), or launching/running it
raised some other exception whose `str()` is `msg`. -/
inductive ExecOutcome where
  | completed (returncode : Int) (stdout stderr : String)
  | timedOut
  | failed (msg : String)
deriving DecidableEq

/-- `DependencyAnalyzer.run_command`: returns `(exit code, stdout,
stderr)`; `except TimeoutExpired` yields `(1, "", "Command timed out")`
and `except Exception as e` yields `(1, "", str(e))`.  Total: no
exception escapes. -/
def run_command : ExecOutcome → Int × String × String
  | .completed rc out err => (rc, out, err)
  | .timedOut => (1, "", "Command timed out")
  | .failed msg => (1, "", msg)

/-! ## Cargo probe (`DependencyAnalyzer.analyze_cargo_deps`) -/

/-- One entry of the `"dependencies"` list of `cargo outdated --format
json`.  Each field is `Option` because the script indexes `dep["name"]`,
`dep["project"]`, `dep["latest"]` directly (a missing key raises
`KeyError`) and uses `dep.get("kind", "unknown")`. -/
structure CargoDep where
  name : Option String
  project : Option String
  latest : Option String
  kind : Option String
deriving DecidableEq

/-- `json.loads` result for the cargo probe, when it is a JSON object:
`data.get("dependencies", [])` defaults to the empty list. -/
structure CargoJson where
  dependencies : Option (List CargoDep)
deriving DecidableEq

/-- Environment of one `analyze_cargo_deps` call: the outcome of
`cargo outdated --version`, the outcome of
`cargo outdated --workspace --format json`, and the result of
`json.loads` on the latter's stdout (`none` = `json.JSONDecodeError`). -/
structure CargoEnv where
  versionCheck : ExecOutcome
  outdatedRun : ExecOutcome
  jsonResult : Option CargoJson
deriving DecidableEq

/-- The body of the `for dep in dependencies` loop of
`analyze_cargo_deps`.  `dep["project"]` and `dep["latest"]` are read
first (an absent key raises `KeyError`, the `.error` arms here);
`dep["name"]` is read only when the two differ, and
`dep.get("kind", "unknown")` defaults.  Only `json.JSONDecodeError` is
caught by the surrounding `try`, so a `KeyError` here escapes the
probe. -/
def processCargoDep (res : EcosystemResult) (dep : CargoDep) :
    Except PyExc EcosystemResult :=
  match dep.project with
  | none => .error (.keyError "project")
  | some project =>
    match dep.latest with
    | none => .error (.keyError "latest")
    | some latest =>
      if project ≠ latest then
        match dep.name with
        | none => .error (.keyError "name")
        | some name =>
          .ok { res with
            outdated_count := res.outdated_count + 1,
            updates := res.updates ++
              [⟨name, project, latest, determine_semver_change project latest,
                some (dep.kind.getD "unknown")⟩] }
      else .ok res

/-- `DependencyAnalyzer.analyze_cargo_deps`.  An `Except.error` value is a
Python exception escaping the probe (only `KeyError` is possible);
`Except.ok (ProbeResult.error _)` is a returned `{"error": ...}`
dictionary. -/
def analyze_cargo_deps (env : CargoEnv) : Except PyExc ProbeResult :=
  if (run_command env.versionCheck).1 ≠ 0 then
    pure (.error "cargo-outdated not installed")
  else if (run_command env.outdatedRun).1 ≠ 0 then
    pure (.error ("Failed to run cargo outdated: " ++ (run_command env.outdatedRun).2.2))
  else
      match env.jsonResult with
      | none => pure (.error "Failed to parse cargo outdated output")
      | some data =>
        let dependencies := data.dependencies.getD []
        let init : EcosystemResult :=
          { total_deps := dependencies.length, outdated_count := 0,
            updates := [], security_advisories := some [] }
        match dependencies.foldlM processCargoDep init with
        | .error e => .error e
        | .ok r => .ok (.ok r)

/-! ## Go probe (`DependencyAnalyzer.analyze_go_deps`) -/

/-- `re.match(r'^(\S+)\s+(\S+)(?:\s+\[([^\]]+)\])?', line)`.

`re.match` anchors at the start only, so trailing text is ignored.  With
greedy matching: group 1 is the maximal leading run of non-whitespace
(must be non-empty and followed by at least one whitespace), group 2 the
next maximal non-whitespace run (non-empty); the optional group matches
exactly when group 2 is immediately followed by whitespace, `'['`, a
non-empty run of non-`']'` characters, and `']'` — otherwise it matches
empty and group 3 is `None`.  Backtracking never shortens groups 1/2:
giving back a non-whitespace character cannot make `\s+` match, and the
optional group always succeeds by matching empty. -/
def goLineMatch (line : String) : Option (String × String × Option String) :=
  let cs := line.data
  let tok1 := cs.takeWhile (fun c => !isPySpace c)
  if tok1.isEmpty then none
  else
    let r1 := cs.drop tok1.length
    let sp1 := r1.takeWhile isPySpace
    if sp1.isEmpty then none
    else
      let r2 := r1.drop sp1.length
      let tok2 := r2.takeWhile (fun c => !isPySpace c)
      if tok2.isEmpty then none
      else
        let r3 := r2.drop tok2.length
        let sp2 := r3.takeWhile isPySpace
        let r4 := r3.drop sp2.length
        let latest : Option String :=
          if sp2.isEmpty then none
          else
            match r4 with
            | '[' :: rest =>
              let inner := rest.takeWhile (fun c => c ≠ ']')
              if inner.isEmpty then none
              else if (rest.drop inner.length).head? = some ']' then
                some (String.mk inner)
              else none
            | _ => none
        some (String.mk tok1, String.mk tok2, latest)

/-- The body of the `for line in stdout.strip().split('\n')` loop of
`analyze_go_deps`.  A blank line is skipped before the counter; every
other line increments `total_deps` first and is only then matched against
the pattern; `if latest_version and latest_version != current_version`
requires group 3 to be present, non-empty (truthiness) and different from
the current version. -/
def processGoLine (res : EcosystemResult) (line : String) : EcosystemResult :=
  if line = "" then res
  else
    let res1 := { res with total_deps := res.total_deps + 1 }
    match goLineMatch line with
    | none => res1
    | some (module_name, current_version, latest_version) =>
      match latest_version with
      | none => res1
      | some lv =>
        if lv ≠ "" ∧ lv ≠ current_version then
          { res1 with
            outdated_count := res1.outdated_count + 1,
            updates := res1.updates ++
              [⟨module_name, current_version, lv,
                determine_semver_change current_version lv, none⟩] }
        else res1

/-- Environment of one `analyze_go_deps` call for a module directory:
whether `module_path / "go.mod"` exists, and the outcome of
`go list -u -m all` run in that directory. -/
structure GoModuleEnv where
  goModExists : Bool
  listRun : ExecOutcome
deriving DecidableEq

/-- `DependencyAnalyzer.analyze_go_deps`.  `modulePathStr` stands for
`str(module_path)`.  The probe raises no exceptions, so it returns a
`ProbeResult` directly. -/
def analyze_go_deps (modulePathStr : String) (env : GoModuleEnv) : ProbeResult :=
  if !env.goModExists then .error "go.mod not found"
  else if (run_command env.listRun).1 ≠ 0 then
    .error ("Failed to run go list: " ++ (run_command env.listRun).2.2)
  else
    .ok ((pySplit '\n' (pyStrip (run_command env.listRun).2.1)).foldl processGoLine
      { module_path := some modulePathStr, total_deps := 0,
        outdated_count := 0, updates := [] })

/-! ## Report builder (`DependencyAnalyzer.generate_report`,
`DependencyAnalyzer.has_major_updates`, `has_security_updates`) -/

/-- The `report["summary"]` dictionary. -/
structure Summary where
  total_rust_updates : Nat
  total_go_updates : Nat
  total_updates : Nat
  has_major_updates : Bool
  has_security_updates : Bool
deriving DecidableEq

/-- The report dictionary.  `rust = none` models the initial `{}` left in
place when no `Cargo.toml` exists at the project root; `go_modules` keeps
the insertion-ordered `"parent/dir"`-keyed probe results. -/
structure Report where
  timestamp : String
  project_root : String
  rust : Option ProbeResult
  go_modules : List (String × ProbeResult)
  summary : Summary
deriving DecidableEq

/-- `report.get("rust", {}).get("updates", [])`: both the initial `{}`
and an error dictionary yield `[]`. -/
def rustUpdatesOf : Option ProbeResult → List UpdateRecord
  | none => []
  | some pr => pr.updatesD

/-- `DependencyAnalyzer.has_major_updates`: return `True` as soon as a
rust update with `change_type == "major"` is found, then scan each go
module's updates, else `False`. -/
def has_major_updates (rust : Option ProbeResult)
    (go_modules : List (String × ProbeResult)) : Bool :=
  if (rustUpdatesOf rust).any (fun u => u.change_type == "major") then true
  else if go_modules.any
      (fun m => m.2.updatesD.any (fun u => u.change_type == "major")) then true
  else false

/-- `DependencyAnalyzer.has_security_updates`: stubbed in the source to
always return `False`. -/
def has_security_updates (_report_rust : Option ProbeResult)
    (_go : List (String × ProbeResult)) : Bool := false

/-- Outcome of `subprocess.check_output(["date", ...])`: `check_output`
raises `CalledProcessError` on a non-zero exit (and `OSError` if the
binary is missing); the script does not catch either. -/
inductive DateOutcome where
  | ok (ts : String)
  | fails
deriving DecidableEq

/-- Environment of one `generate_report` call: the date call, whether
`Cargo.toml` exists at the root, the cargo probe environment, and for
each of the two hardcoded go module directories (`bindings/go`,
`examples/goclient`) whether the directory exists plus its probe
environment. -/
structure ReportEnv where
  dateOutcome : DateOutcome
  projectRootStr : String
  cargoTomlExists : Bool
  cargoEnv : CargoEnv
  bindingsGoExists : Bool
  bindingsGoEnv : GoModuleEnv
  goclientExists : Bool
  goclientEnv : GoModuleEnv
deriving DecidableEq

/-- The `report["go_modules"]` section: the probe runs on each of the two
hardcoded directories that exist, keyed `f"{dir.parent.name}/{dir.name}"`. -/
def goModulesSection (env : ReportEnv) : List (String × ProbeResult) :=
  (if env.bindingsGoExists then
    [("bindings/go", analyze_go_deps "bindings/go" env.bindingsGoEnv)]
   else []) ++
  (if env.goclientExists then
    [("examples/goclient", analyze_go_deps "examples/goclient" env.goclientEnv)]
   else [])

/-- Assembling the final report dictionary from the probe sections
(the tail of `generate_report` after the probes ran). -/
def mkReport (ts root : String) (rust : Option ProbeResult)
    (gos : List (String × ProbeResult)) : Report :=
  let total_rust_updates := (rust.map ProbeResult.outdatedCountD).getD 0
  let total_go_updates := (gos.map (fun m => m.2.outdatedCountD)).sum
  { timestamp := ts, project_root := root, rust := rust, go_modules := gos,
    summary :=
      { total_rust_updates := total_rust_updates,
        total_go_updates := total_go_updates,
        total_updates := total_rust_updates + total_go_updates,
        has_major_updates := has_major_updates rust gos,
        has_security_updates := has_security_updates rust gos } }

/-- `DependencyAnalyzer.generate_report`.  The `date` call and the cargo
probe can raise; the go probes cannot. -/
def generate_report (env : ReportEnv) : Except PyExc Report :=
  match env.dateOutcome with
  | .fails => .error .calledProcessError
  | .ok ts =>
    let rustE : Except PyExc (Option ProbeResult) :=
      if env.cargoTomlExists then (analyze_cargo_deps env.cargoEnv).map some
      else pure none
    match rustE with
    | .error e => .error e
    | .ok rust => .ok (mkReport ts env.projectRootStr rust (goModulesSection env))

/-! ## Entry point (`main`) -/

/-- Outcome of `open(args.save, 'w')` + `json.dump`: the write succeeds or
raises an `OSError` with message `msg`; the script does not catch it. -/
inductive SaveOutcome where
  | ok
  | fails (msg : String)
deriving DecidableEq

/-- Environment of one `main` invocation: whether the resolved
`--project-root` exists, the report environment, and the `--save`
argument (`none` = flag absent) with its write outcome. -/
structure MainEnv where
  rootExists : Bool
  reportEnv : ReportEnv
  save : Option SaveOutcome
deriving DecidableEq

/-- `main`: `Except.ok c` is a clean process exit with code `c`
(`sys.exit(1)` on a missing root or when updates exist, falling off the
end otherwise = exit 0); `Except.error e` is an uncaught Python
exception.  Printing the report (either render mode) does not affect
control flow and is omitted. -/
def main_run (env : MainEnv) : Except PyExc Nat :=
  if env.rootExists = false then .ok 1
  else
    match generate_report env.reportEnv with
    | .error e => .error e
    | .ok report =>
      match env.save with
      | some (.fails msg) => .error (.oSError msg)
      | _ => if report.summary.total_updates > 0 then .ok 1 else .ok 0

deriving instance DecidableEq for Except

/-! ## Derived notions used to state the claims -/

/-- Whether a cargo dependency entry would be counted as outdated by the
probe's loop (`dep["project"] != dep["latest"]`), as a total predicate on
entries with possibly missing keys. -/
def cargoDepOutdated (d : CargoDep) : Bool :=
  match d.project, d.latest with
  | some p, some l => p ≠ l
  | _, _ => false

/-- The `"dependencies"` list the cargo probe iterates over for a given
environment (empty when the output is not JSON). -/
def cargoDepsOf (env : CargoEnv) : List CargoDep :=
  match env.jsonResult with
  | some data => data.dependencies.getD []
  | none => []

/-- Whether a line of `go list` output yields an `UpdateRecord`: the line
is non-blank, matches the pattern, and carries a latest-version group that
is truthy and different from the current version. -/
def goLineYieldsUpdate (line : String) : Bool :=
  if line = "" then false
  else
    match goLineMatch line with
    | some (_, current_version, some lv) => lv ≠ "" ∧ lv ≠ current_version
    | _ => false

/-- The list of lines the go probe iterates over for a given stdout. -/
def goLinesOf (stdout : String) : List String := pySplit '\n' (pyStrip stdout)

/-- All `UpdateRecord`s of a report, across the rust section and every go
module section, in report order. -/
def Report.allUpdates (r : Report) : List UpdateRecord :=
  rustUpdatesOf r.rust ++ (r.go_modules.map (fun m => m.2.updatesD)).flatten

/-! ## Concrete environments used as witnesses and counterexamples -/

/-- A cargo environment whose single dependency entry lacks the `"name"`
key but has equal `"project"` and `"latest"` versions. -/
def cargoEnvNoName : CargoEnv :=
  ⟨.completed 0 "" "", .completed 0 "{...}" "",
   some ⟨some [⟨none, some "1.0.0", some "1.0.0", none⟩]⟩⟩

/-- A cargo environment with one well-formed outdated dependency. -/
def cargoEnvOneUpdate : CargoEnv :=
  ⟨.completed 0 "" "", .completed 0 "{...}" "",
   some ⟨some [⟨some "serde", some "1.2.3", some "2.0.0", some "normal"⟩]⟩⟩

/-- A go module environment whose `go list` stdout is the single
non-blank, non-pattern-matching line `"abc"`. -/
def goEnvUnmatched : GoModuleEnv := ⟨true, .completed 0 "abc" ""⟩

/-- A go module environment with one outdated module and one up-to-date
module. -/
def goEnvOneUpdate : GoModuleEnv :=
  ⟨true, .completed 0 "modA v1.0.0 [v1.1.0]\nmodB v1.0.0" ""⟩

/-- A report environment where everything is healthy and the single
ecosystem is the cargo one with one (major) update available. -/
def reportEnvOneUpdate : ReportEnv :=
  ⟨.ok "2026-10-12 00:00:00", "/repo", true, cargoEnvOneUpdate,
   false, ⟨false, .completed 0 "" ""⟩, false, ⟨false, .completed 0 "" ""⟩⟩

/-- A report environment where the cargo tool is missing (its version
check exits 2) and no go module directory exists: the run yields an
error-bearing rust section and zero updates. -/
def reportEnvToolMissing : ReportEnv :=
  ⟨.ok "2026-10-12 00:00:00", "/repo", true,
   ⟨.completed 2 "" "", .completed 0 "" "", none⟩,
   false, ⟨false, .completed 0 "" ""⟩, false, ⟨false, .completed 0 "" ""⟩⟩

/-- A report environment identical to `reportEnvToolMissing` except that
the `date` call fails. -/
def reportEnvDateFails : ReportEnv :=
  ⟨.fails, "/repo", true,
   ⟨.completed 2 "" "", .completed 0 "" "", none⟩,
   false, ⟨false, .completed 0 "" ""⟩, false, ⟨false, .completed 0 "" ""⟩⟩

/-- A main environment whose project root does not exist. -/
def mainEnvNoRoot : MainEnv := ⟨false, reportEnvOneUpdate, none⟩

/-- A main environment for a healthy run with zero updates available. -/
def mainEnvZeroUpdates : MainEnv := ⟨true, reportEnvToolMissing, none⟩

/-- A main environment for a healthy run with one update available. -/
def mainEnvOneUpdate : MainEnv := ⟨true, reportEnvOneUpdate, some .ok⟩

/-- A main environment in which the `date` call fails. -/
def mainEnvDateFails : MainEnv := ⟨true, reportEnvDateFails, none⟩

/-- The report produced by `generate_report` on `reportEnvOneUpdate`. -/
def reportOneUpdate : Report :=
  mkReport "2026-10-12 00:00:00" "/repo"
    (some (ProbeResult.ok
      { total_deps := 1, outdated_count := 1,
        updates := [⟨"serde", "1.2.3", "2.0.0", "major", some "normal"⟩],
        security_advisories := some [] })) []

/-- The report produced by `generate_report` on `reportEnvToolMissing`. -/
def reportToolMissing : Report :=
  mkReport "2026-10-12 00:00:00" "/repo"
    (some (ProbeResult.error "cargo-outdated not installed")) []

/-! ## Lemmas about the probe loops and the report builder -/

lemma exceptBindOk {α β : Type} (a : α) (f : α → Except PyExc β) :
    (Except.ok a >>= f) = f a := rfl

lemma exceptBindErr {α β : Type} (e : PyExc) (f : α → Except PyExc β) :
    ((Except.error e : Except PyExc α) >>= f) = Except.error e := rfl

lemma processCargoDep_ok_cases (res : EcosystemResult) (dep : CargoDep)
    (r : EcosystemResult) (h : processCargoDep res dep = Except.ok r) :
    (cargoDepOutdated dep = false ∧ r = res) ∨
    (cargoDepOutdated dep = true ∧
      ∃ u : UpdateRecord, u.current ≠ u.latest ∧
        r = { res with outdated_count := res.outdated_count + 1,
                       updates := res.updates ++ [u] }) := by
  unfold processCargoDep at h
  cases hp : dep.project with
  | none => simp [hp] at h
  | some p =>
    cases hl : dep.latest with
    | none => simp [hp, hl] at h
    | some l =>
      simp only [hp, hl] at h
      by_cases hpl : p = l
      · subst hpl
        simp at h
        exact Or.inl ⟨by simp [cargoDepOutdated, hp, hl], h.symm⟩
      · cases hn : dep.name with
        | none => simp [hn, hpl] at h
        | some n =>
          rw [if_pos hpl, hn] at h
          refine Or.inr ⟨by simp [cargoDepOutdated, hp, hl, hpl], ?_⟩
          refine ⟨⟨n, p, l, determine_semver_change p l, some (dep.kind.getD "unknown")⟩,
                  fun hc => hpl hc, ?_⟩
          cases h
          rfl

lemma cargo_foldlM_spec :
    ∀ (deps : List CargoDep) (res r : EcosystemResult),
      List.foldlM processCargoDep res deps = Except.ok r →
      ∃ us : List UpdateRecord,
        r = { res with outdated_count := res.outdated_count + us.length,
                       updates := res.updates ++ us } ∧
        us.length = deps.countP cargoDepOutdated ∧
        ∀ u ∈ us, u.current ≠ u.latest := by
  intro deps
  induction deps with
  | nil =>
    intro res r h
    replace h : Except.ok res = Except.ok r := h
    cases h
    exact ⟨[], by simp, by simp, by simp⟩
  | cons d ds ih =>
    intro res r h
    rw [List.foldlM_cons] at h
    cases hd : processCargoDep res d with
    | error e => rw [hd, exceptBindErr] at h; simp at h
    | ok res2 =>
      rw [hd, exceptBindOk] at h
      obtain ⟨us, hr, hlen, hmem⟩ := ih res2 r h
      rcases processCargoDep_ok_cases res d res2 hd with ⟨hout, rfl⟩ | ⟨hout, u, hu, rfl⟩
      · exact ⟨us, by simpa using hr, by simp [List.countP_cons, hout, hlen], hmem⟩
      · refine ⟨u :: us, ?_, ?_, ?_⟩
        · rw [hr]; simp; omega
        · simp [List.countP_cons, hout, hlen]
        · intro x hx
          rcases List.mem_cons.mp hx with rfl | hx
          · exact hu
          · exact hmem x hx

lemma processGoLine_spec (res : EcosystemResult) (line : String) :
    ∃ us : List UpdateRecord,
      processGoLine res line =
        { res with
          total_deps := res.total_deps + (if line = "" then 0 else 1),
          outdated_count := res.outdated_count + us.length,
          updates := res.updates ++ us } ∧
      us.length = (if goLineYieldsUpdate line then 1 else 0) ∧
      ∀ u ∈ us, u.current ≠ u.latest := by
  by_cases hb : line = ""
  · exact ⟨[], by simp [processGoLine, hb], by simp [goLineYieldsUpdate, hb], by simp⟩
  · cases hm : goLineMatch line with
    | none =>
      exact ⟨[], by simp [processGoLine, hb, hm],
             by simp [goLineYieldsUpdate, hb, hm], by simp⟩
    | some g =>
      obtain ⟨name, cur, lv⟩ := g
      cases lv with
      | none =>
        exact ⟨[], by simp [processGoLine, hb, hm],
               by simp [goLineYieldsUpdate, hb, hm], by simp⟩
      | some l =>
        by_cases hc : l ≠ "" ∧ l ≠ cur
        · refine ⟨[⟨name, cur, l, determine_semver_change cur l, none⟩],
                  by simp [processGoLine, hb, hm, hc], ?_, ?_⟩
          · simp [goLineYieldsUpdate, hb, hm, hc]
          · intro u hu
            rcases List.mem_singleton.mp hu with rfl
            exact fun h => hc.2 h.symm
        · exact ⟨[], by simp [processGoLine, hb, hm, hc],
                 by simp [goLineYieldsUpdate, hb, hm, hc], by simp⟩

lemma go_foldl_spec :
    ∀ (lines : List String) (res : EcosystemResult),
      ∃ us : List UpdateRecord,
        lines.foldl processGoLine res =
          { res with
            total_deps := res.total_deps + lines.countP (fun l => !(l == "")),
            outdated_count := res.outdated_count + us.length,
            updates := res.updates ++ us } ∧
        us.length = lines.countP goLineYieldsUpdate ∧
        ∀ u ∈ us, u.current ≠ u.latest := by
  intro lines
  induction lines with
  | nil => intro res; exact ⟨[], by simp, by simp, by simp⟩
  | cons line ls ih =>
    intro res
    obtain ⟨u1, h1, hl1, hm1⟩ := processGoLine_spec res line
    obtain ⟨us, h2, hl2, hm2⟩ := ih (processGoLine res line)
    refine ⟨u1 ++ us, ?_, ?_, ?_⟩
    · rw [List.foldl_cons, h2, h1]
      simp [List.countP_cons]
      constructor
      · by_cases hb : line = ""
        · simp [hb]
        · simp [hb]; omega
      · omega
    · rw [List.countP_cons]
      simp [hl1, hl2]
      by_cases hy : goLineYieldsUpdate line
      · simp [hy]; omega
      · simp [hy]
    · intro u hu
      rcases List.mem_append.mp hu with hu | hu
      · exact hm1 u hu
      · exact hm2 u hu

lemma analyze_cargo_ok_inv (env : CargoEnv) (r : EcosystemResult)
    (h : analyze_cargo_deps env = Except.ok (ProbeResult.ok r)) :
    ∃ us : List UpdateRecord,
      r = { total_deps := (cargoDepsOf env).length, outdated_count := us.length,
            updates := us, security_advisories := some [] } ∧
      us.length = (cargoDepsOf env).countP cargoDepOutdated ∧
      ∀ u ∈ us, u.current ≠ u.latest := by
  unfold analyze_cargo_deps at h
  split_ifs at h with h1 h2
  · simp [pure, Except.pure] at h
  · simp [pure, Except.pure] at h
  · cases hj : env.jsonResult with
    | none => rw [hj] at h; simp [pure, Except.pure] at h
    | some data =>
      rw [hj] at h
      simp only at h
      cases hf : List.foldlM processCargoDep
          { total_deps := (data.dependencies.getD []).length, outdated_count := 0,
            updates := [], security_advisories := some [] }
          (data.dependencies.getD []) with
      | error e => rw [hf] at h; simp at h
      | ok r2 =>
        rw [hf] at h
        simp at h
        obtain ⟨us, hr2, hlen, hmem⟩ :=
          cargo_foldlM_spec (data.dependencies.getD []) _ r2 hf
        subst h
        refine ⟨us, ?_, ?_, hmem⟩
        · rw [hr2]; simp [cargoDepsOf, hj]
        · rw [hlen]; simp [cargoDepsOf, hj]

lemma analyze_go_ok_inv (mp : String) (env : GoModuleEnv) (r : EcosystemResult)
    (h : analyze_go_deps mp env = ProbeResult.ok r) :
    ∃ us : List UpdateRecord,
      r = { module_path := some mp,
            total_deps :=
              (goLinesOf (run_command env.listRun).2.1).countP (fun l => !(l == "")),
            outdated_count := us.length, updates := us } ∧
      us.length = (goLinesOf (run_command env.listRun).2.1).countP goLineYieldsUpdate ∧
      ∀ u ∈ us, u.current ≠ u.latest := by
  unfold analyze_go_deps at h
  split_ifs at h with h1 h2
  injection h with h
  obtain ⟨us, hfold, hlen, hmem⟩ :=
    go_foldl_spec (pySplit '\n' (pyStrip (run_command env.listRun).2.1))
      { module_path := some mp, total_deps := 0, outdated_count := 0, updates := [] }
  refine ⟨us, ?_, ?_, hmem⟩
  · rw [← h, hfold]; simp [goLinesOf]
  · rw [hlen]; simp [goLinesOf]

lemma generate_report_ok_shape (env : ReportEnv) (r : Report)
    (h : generate_report env = Except.ok r) :
    ∃ ts rust, env.dateOutcome = DateOutcome.ok ts ∧
      r = mkReport ts env.projectRootStr rust (goModulesSection env) := by
  unfold generate_report at h
  cases hd : env.dateOutcome with
  | fails => rw [hd] at h; exact Except.noConfusion h
  | ok ts =>
    rw [hd] at h
    simp only at h
    cases he : (if env.cargoTomlExists then (analyze_cargo_deps env.cargoEnv).map some
                else pure none : Except PyExc (Option ProbeResult)) with
    | error e => rw [he] at h; simp at h
    | ok rust =>
      rw [he] at h
      simp at h
      exact ⟨ts, rust, rfl, h.symm⟩

lemma has_major_updates_iff (rust : Option ProbeResult)
    (gos : List (String × ProbeResult)) :
    has_major_updates rust gos = true ↔
    ∃ u ∈ rustUpdatesOf rust ++ (gos.map (fun m => m.2.updatesD)).flatten,
      u.change_type = "major" := by
  unfold has_major_updates
  by_cases h1 : (rustUpdatesOf rust).any (fun u => u.change_type == "major") = true
  · rw [if_pos h1]
    simp only [List.any_eq_true, beq_iff_eq] at h1
    obtain ⟨u, hu, hc⟩ := h1
    simp only [true_iff]
    exact ⟨u, List.mem_append.mpr (Or.inl hu), hc⟩
  · rw [if_neg h1]
    by_cases h2 : gos.any (fun m => m.2.updatesD.any (fun u => u.change_type == "major")) = true
    · rw [if_pos h2]
      simp only [List.any_eq_true, beq_iff_eq] at h2
      obtain ⟨m, hm, u, hu, hc⟩ := h2
      simp only [true_iff]
      refine ⟨u, List.mem_append.mpr (Or.inr ?_), hc⟩
      exact List.mem_flatten.mpr ⟨m.2.updatesD, List.mem_map.mpr ⟨m, hm, rfl⟩, hu⟩
    · rw [if_neg h2]
      simp only [Bool.false_eq_true, false_iff, not_exists]
      intro u hu
      obtain ⟨hu, hc⟩ := hu
      rcases List.mem_append.mp hu with hu | hu
      · exact h1 (List.any_eq_true.mpr ⟨u, hu, by simp [hc]⟩)
      · obtain ⟨l, hl, hul⟩ := List.mem_flatten.mp hu
        obtain ⟨m, hm, rfl⟩ := List.mem_map.mp hl
        exact h2 (List.any_eq_true.mpr ⟨m, hm,
          List.any_eq_true.mpr ⟨u, hul, by simp [hc]⟩⟩)

lemma processCargoDep_no_throw (res : EcosystemResult) (dep : CargoDep)
    (hp : dep.project ≠ none) (hl : dep.latest ≠ none) (hn : dep.name ≠ none) :
    ∃ r, processCargoDep res dep = Except.ok r := by
  unfold processCargoDep
  cases hp2 : dep.project with
  | none => exact absurd hp2 hp
  | some p =>
    cases hl2 : dep.latest with
    | none => exact absurd hl2 hl
    | some l =>
      by_cases hpl : p = l
      · exact ⟨res, by simp [hpl]⟩
      · cases hn2 : dep.name with
        | none => exact absurd hn2 hn
        | some n =>
          refine ⟨⟨res.module_path, res.total_deps, res.outdated_count + 1,
                   res.updates ++ [⟨n, p, l, determine_semver_change p l,
                     some (dep.kind.getD "unknown")⟩],
                   res.security_advisories⟩, ?_⟩
          simp [hpl]

lemma cargo_foldlM_no_throw :
    ∀ (deps : List CargoDep) (res : EcosystemResult),
      (∀ d ∈ deps, d.project ≠ none ∧ d.latest ≠ none ∧ d.name ≠ none) →
      ∃ r, List.foldlM processCargoDep res deps = Except.ok r := by
  intro deps
  induction deps with
  | nil => intro res _; exact ⟨res, rfl⟩
  | cons d ds ih =>
    intro res hk
    obtain ⟨hp, hl, hn⟩ := hk d (List.mem_cons_self d ds)
    obtain ⟨res2, h2⟩ := processCargoDep_no_throw res d hp hl hn
    obtain ⟨r, hr⟩ := ih res2 (fun x hx => hk x (List.mem_cons_of_mem d hx))
    exact ⟨r, by rw [List.foldlM_cons, h2, exceptBindOk, hr]⟩

lemma analyze_cargo_no_throw (env : CargoEnv)
    (hk : ∀ d ∈ cargoDepsOf env, d.project ≠ none ∧ d.latest ≠ none ∧ d.name ≠ none) :
    ∃ pr, analyze_cargo_deps env = Except.ok pr := by
  unfold analyze_cargo_deps
  split_ifs with h1 h2
  · exact ⟨_, rfl⟩
  · exact ⟨_, rfl⟩
  · cases hj : env.jsonResult with
    | none => exact ⟨_, rfl⟩
    | some data =>
      simp only []
      obtain ⟨r, hr⟩ := cargo_foldlM_no_throw (data.dependencies.getD [])
        { total_deps := (data.dependencies.getD []).length, outdated_count := 0,
          updates := [], security_advisories := some [] }
        (by intro d hd; exact hk d (by simp [cargoDepsOf, hj]; exact hd))
      rw [hr]
      exact ⟨_, rfl⟩

lemma generate_report_no_throw (env : ReportEnv) (ts : String)
    (hd : env.dateOutcome = DateOutcome.ok ts)
    (hk : ∀ d ∈ cargoDepsOf env.cargoEnv,
      d.project ≠ none ∧ d.latest ≠ none ∧ d.name ≠ none) :
    ∃ r, generate_report env = Except.ok r := by
  unfold generate_report
  rw [hd]
  simp only []
  by_cases hc : env.cargoTomlExists
  · obtain ⟨pr, hpr⟩ := analyze_cargo_no_throw env.cargoEnv hk
    rw [if_pos hc, hpr]
    exact ⟨_, rfl⟩
  · rw [if_neg hc]
    exact ⟨_, rfl⟩


/-! ## The claims -/

/-- C1: `determine_semver_change` (classify) compares the `parse_version`
results positionally: "major" iff the major components differ, "minor" iff
majors agree and minors differ, "patch" iff only the patch components
differ, "other" iff the parsed tuples are equal; the spec's four concrete
examples hold. -/
theorem classify_spec (current latest : String) :
    (determine_semver_change current latest = "major" ↔
      (parse_version current).1 ≠ (parse_version latest).1) ∧
    (determine_semver_change current latest = "minor" ↔
      (parse_version current).1 = (parse_version latest).1 ∧
      (parse_version current).2.1 ≠ (parse_version latest).2.1) ∧
    (determine_semver_change current latest = "patch" ↔
      (parse_version current).1 = (parse_version latest).1 ∧
      (parse_version current).2.1 = (parse_version latest).2.1 ∧
      (parse_version current).2.2 ≠ (parse_version latest).2.2) ∧
    (determine_semver_change current latest = "other" ↔
      parse_version current = parse_version latest) ∧
    determine_semver_change "1.2.3" "2.0.0" = "major" ∧
    determine_semver_change "1.2.3" "1.3.0" = "minor" ∧
    determine_semver_change "1.2.3" "1.2.9" = "patch" ∧
    determine_semver_change "1.2.3" "1.2.3" = "other" := by
  refine ⟨?_, ?_, ?_, ?_, by decide, by decide, by decide, by decide⟩ <;>
    · unfold determine_semver_change
      rcases hc : parse_version current with ⟨a, b, c⟩
      rcases hl : parse_version latest with ⟨d, e, f⟩
      dsimp only
      split_ifs <;> simp_all

/-- C2: `parse_version` is total — every string, including the empty
string and inputs with no digits, missing segments or suffixes, yields a
3-tuple of natural numbers — and the spec's example evaluations hold. -/
theorem parse_version_total :
    (∀ s : String, ∃ a b c : Nat, parse_version s = (a, b, c)) ∧
    parse_version "v2.3.4" = (2, 3, 4) ∧
    parse_version "1.2" = (1, 2, 0) ∧
    parse_version "3.0.0-alpha" = (3, 0, 0) ∧
    parse_version "abc" = (0, 0, 0) ∧
    parse_version "" = (0, 0, 0) :=
  ⟨fun _ => ⟨_, _, _, rfl⟩, by decide, by decide, by decide, by decide, by decide⟩

/-- C3 counterexample: the claim predicts `parse_version "vv2.3.4" =
(0, 3, 4)`, but `lstrip('v')` removes every leading `'v'` (a character
set, not a single prefix), so the code yields `(2, 3, 4)`. -/
theorem parse_version_double_v_counterexample :
    parse_version "vv2.3.4" = (2, 3, 4) ∧ parse_version "vv2.3.4" ≠ (0, 3, 4) := by decide

/-- C3 amended: `parse_version` strips ALL leading `'v'` characters, so
prefixing any input with one more `'v'` never changes the result. -/
theorem parse_version_lstrip_all (s : String) :
    parse_version ("v" ++ s) = parse_version s := by
  cases s with
  | mk d => rfl

/-- C4: whenever either probe returns a result without an error field,
`outdated_count` equals the length of `updates`, every appended record has
differing current/latest version strings, and the records are in bijection
with the outdated dependency entries (cargo) resp. the update-carrying
lines (go). -/
theorem probe_outdated_count_invariant :
    (∀ (env : CargoEnv) (r : EcosystemResult),
      analyze_cargo_deps env = Except.ok (ProbeResult.ok r) →
      r.outdated_count = r.updates.length ∧
      (∀ u ∈ r.updates, u.current ≠ u.latest) ∧
      r.updates.length = (cargoDepsOf env).countP cargoDepOutdated) ∧
    (∀ (mp : String) (env : GoModuleEnv) (r : EcosystemResult),
      analyze_go_deps mp env = ProbeResult.ok r →
      r.outdated_count = r.updates.length ∧
      (∀ u ∈ r.updates, u.current ≠ u.latest) ∧
      r.updates.length =
        (goLinesOf (run_command env.listRun).2.1).countP goLineYieldsUpdate) := by
  constructor
  · intro env r h
    obtain ⟨us, rfl, hlen, hmem⟩ := analyze_cargo_ok_inv env r h
    exact ⟨rfl, hmem, hlen⟩
  · intro mp env r h
    obtain ⟨us, rfl, hlen, hmem⟩ := analyze_go_ok_inv mp env r h
    exact ⟨rfl, hmem, hlen⟩

/-- Witness for C4: the invariant at one concrete cargo environment and
one concrete go environment. -/
theorem probe_outdated_count_invariant_witness :
    (({ total_deps := 1, outdated_count := 1,
        updates := [⟨"serde", "1.2.3", "2.0.0", "major", some "normal"⟩],
        security_advisories := some [] } : EcosystemResult).outdated_count =
      ({ total_deps := 1, outdated_count := 1,
         updates := [⟨"serde", "1.2.3", "2.0.0", "major", some "normal"⟩],
         security_advisories := some [] } : EcosystemResult).updates.length) ∧
    (({ module_path := some "m", total_deps := 2, outdated_count := 1,
        updates := [⟨"modA", "v1.0.0", "v1.1.0", "minor", none⟩] } :
         EcosystemResult).outdated_count =
      ({ module_path := some "m", total_deps := 2, outdated_count := 1,
         updates := [⟨"modA", "v1.0.0", "v1.1.0", "minor", none⟩] } :
          EcosystemResult).updates.length) :=
  ⟨(probe_outdated_count_invariant.1 cargoEnvOneUpdate _ (by decide)).1,
   (probe_outdated_count_invariant.2 "m" goEnvOneUpdate _ (by decide)).1⟩

/-- C5: in every generated report, `summary.has_major_updates` is true iff
at least one UpdateRecord in the rust section or in some go-module section
has change_type "major"; on a report with no updates at all it is
false. -/
theorem report_has_major_iff (env : ReportEnv) (r : Report)
    (h : generate_report env = Except.ok r) :
    (r.summary.has_major_updates = true ↔
      ∃ u ∈ r.allUpdates, u.change_type = "major") ∧
    (r.allUpdates = [] → r.summary.has_major_updates = false) := by
  obtain ⟨ts, rust, hd, rfl⟩ := generate_report_ok_shape env r h
  have hiff : (mkReport ts env.projectRootStr rust (goModulesSection env)).summary.has_major_updates = true ↔
      ∃ u ∈ (mkReport ts env.projectRootStr rust (goModulesSection env)).allUpdates,
        u.change_type = "major" := by
    show has_major_updates rust (goModulesSection env) = true ↔ _
    exact has_major_updates_iff rust (goModulesSection env)
  refine ⟨hiff, ?_⟩
  intro hempty
  cases hb : (mkReport ts env.projectRootStr rust (goModulesSection env)).summary.has_major_updates with
  | false => rfl
  | true =>
    obtain ⟨u, hu, _⟩ := hiff.mp hb
    rw [hempty] at hu
    cases hu

/-- Witness for C5: a concrete report with one major update. -/
theorem report_has_major_iff_witness :
    ∃ u ∈ reportOneUpdate.allUpdates, u.change_type = "major" :=
  (report_has_major_iff reportEnvOneUpdate reportOneUpdate (by decide)).1.mp (by decide)

/-- C6 counterexample: on the single non-blank, non-pattern-matching
`go list` output line `"abc"`, the probe reports `total_deps = 1` although
zero lines match the pattern — `total_deps` is incremented before the
pattern is tried, so non-matching non-blank lines do contribute. -/
theorem go_total_deps_counterexample :
    analyze_go_deps "m" goEnvUnmatched =
      ProbeResult.ok { module_path := some "m", total_deps := 1,
                       outdated_count := 0, updates := [] } ∧
    (goLinesOf (run_command goEnvUnmatched.listRun).2.1).countP
      (fun l => (goLineMatch l).isSome) = 0 ∧
    (1 : Nat) ≠ 0 := by decide

/-- C6 amended: non-matching lines are silently skipped for update
extraction, but every non-blank line increments `total_deps`: on a
successful run `total_deps` equals the number of non-blank output lines,
and the updates arise exactly from the pattern-matching lines that carry a
differing latest version. -/
theorem go_total_deps_counts_nonblank (mp : String) (env : GoModuleEnv)
    (r : EcosystemResult) (h : analyze_go_deps mp env = ProbeResult.ok r) :
    r.total_deps =
      (goLinesOf (run_command env.listRun).2.1).countP (fun l => !(l == "")) ∧
    r.updates.length =
      (goLinesOf (run_command env.listRun).2.1).countP goLineYieldsUpdate := by
  obtain ⟨us, rfl, hlen, hmem⟩ := analyze_go_ok_inv mp env r h
  exact ⟨rfl, hlen⟩

/-- Witness for the amended C6 at a concrete two-line `go list` output. -/
theorem go_total_deps_counts_nonblank_witness :
    ({ module_path := some "m", total_deps := 2, outdated_count := 1,
       updates := [⟨"modA", "v1.0.0", "v1.1.0", "minor", none⟩] } :
        EcosystemResult).total_deps =
      (goLinesOf (run_command goEnvOneUpdate.listRun).2.1).countP (fun l => !(l == "")) ∧
    ({ module_path := some "m", total_deps := 2, outdated_count := 1,
       updates := [⟨"modA", "v1.0.0", "v1.1.0", "minor", none⟩] } :
        EcosystemResult).updates.length =
      (goLinesOf (run_command goEnvOneUpdate.listRun).2.1).countP goLineYieldsUpdate :=
  go_total_deps_counts_nonblank "m" goEnvOneUpdate _ (by decide)

/-- C7: the process exit code is 1 when the resolved project root does not
exist (before any probe runs); when the run completes cleanly, the exit
code is 1 iff `summary.total_updates > 0`, else 0 — also when a probe
returned an error but contributed no updates. -/
theorem main_exit_codes :
    (∀ env : MainEnv, env.rootExists = false → main_run env = Except.ok 1) ∧
    (∀ (env : MainEnv) (r : Report) (c : Nat),
      env.rootExists = true → generate_report env.reportEnv = Except.ok r →
      main_run env = Except.ok c →
      c = if 0 < r.summary.total_updates then 1 else 0) := by
  constructor
  · intro env h
    unfold main_run
    rw [if_pos h]
  · intro env r c hroot hrep hrun
    unfold main_run at hrun
    rw [hroot, if_neg (by decide : ¬(true = false))] at hrun
    rw [hrep] at hrun
    simp only [] at hrun
    cases hs : env.save with
    | none =>
      rw [hs] at hrun
      simp only [] at hrun
      split_ifs at hrun with ht
      · cases hrun; rw [if_pos ht]
      · cases hrun; rw [if_neg ht]
    | some so =>
      cases so with
      | ok =>
        rw [hs] at hrun
        simp only [] at hrun
        split_ifs at hrun with ht
        · cases hrun; rw [if_pos ht]
        · cases hrun; rw [if_neg ht]
      | fails msg =>
        rw [hs] at hrun
        simp at hrun

/-- Witness for C7: a missing root, a zero-update run with a failing cargo
tool (exit 0), and a one-update run (exit 1). -/
theorem main_exit_codes_witness :
    main_run mainEnvNoRoot = Except.ok 1 ∧
    (0 : Nat) = (if 0 < reportToolMissing.summary.total_updates then 1 else 0) ∧
    (1 : Nat) = (if 0 < reportOneUpdate.summary.total_updates then 1 else 0) :=
  ⟨main_exit_codes.1 mainEnvNoRoot rfl,
   main_exit_codes.2 mainEnvZeroUpdates reportToolMissing 0 rfl (by decide) (by decide),
   main_exit_codes.2 mainEnvOneUpdate reportOneUpdate 1 rfl (by decide) (by decide)⟩

/-- C8: `run_command` is total and returns an `(exit code, stdout,
stderr)` triple; a timeout yields the non-zero code 1 with empty stdout
and the fixed message "Command timed out"; any other execution failure
yields code 1 with the exception's textual description. -/
theorem run_command_spec :
    (∀ (rc : Int) (out err : String),
      run_command (.completed rc out err) = (rc, out, err)) ∧
    (run_command .timedOut = (1, "", "Command timed out") ∧ (1 : Int) ≠ 0) ∧
    (∀ msg : String, run_command (.failed msg) = (1, "", msg)) :=
  ⟨fun _ _ _ => rfl, ⟨rfl, by decide⟩, fun _ => rfl⟩

/-- C9 counterexample: when the `date` call fails,
`subprocess.check_output` raises `CalledProcessError` and the exception
escapes `main` uncaught — the claim's "failure of the system date utility
is contained" is false. -/
theorem main_date_failure_crashes :
    main_run mainEnvDateFails = Except.error PyExc.calledProcessError := by decide

/-- C9 amended: provided the `date` call succeeds, any `--save` write
succeeds and the cargo JSON entries carry their required keys, no
exception escapes `main` for any outcome (timeout, launch failure,
non-zero exit, undecodable output) of the probes' external commands; a
failing `date` call or `--save` write instead propagates uncaught. -/
theorem main_no_uncaught_exc (env : MainEnv) (ts : String)
    (hdate : env.reportEnv.dateOutcome = DateOutcome.ok ts)
    (hsave : env.save = none ∨ env.save = some SaveOutcome.ok)
    (hkeys : ∀ d ∈ cargoDepsOf env.reportEnv.cargoEnv,
      d.project ≠ none ∧ d.latest ≠ none ∧ d.name ≠ none) :
    ∃ c, main_run env = Except.ok c := by
  unfold main_run
  by_cases hroot : env.rootExists = false
  · rw [if_pos hroot]; exact ⟨1, rfl⟩
  · rw [if_neg hroot]
    obtain ⟨r, hr⟩ := generate_report_no_throw env.reportEnv ts hdate hkeys
    rw [hr]
    simp only []
    rcases hsave with hs | hs <;> rw [hs]
    · exact ⟨if r.summary.total_updates > 0 then 1 else 0, by split_ifs <;> rfl⟩
    · exact ⟨if r.summary.total_updates > 0 then 1 else 0, by split_ifs <;> rfl⟩

/-- Witness for the amended C9 at a concrete healthy environment. -/
theorem main_no_uncaught_exc_witness :
    ∃ c, main_run mainEnvOneUpdate = Except.ok c :=
  main_no_uncaught_exc mainEnvOneUpdate "2026-10-12 00:00:00" rfl (Or.inr rfl)
    (by decide)

/-- C10 counterexample: a dependencies entry lacking `"name"` whose
`"project"` and `"latest"` agree is processed without raising — the
probe returns a normal result — so the claim's "lacking a name key raises
KeyError" is false as stated. -/
theorem cargo_missing_name_no_raise_counterexample :
    cargoEnvNoName.jsonResult =
      some ⟨some [⟨none, some "1.0.0", some "1.0.0", none⟩]⟩ ∧
    analyze_cargo_deps cargoEnvNoName =
      Except.ok (ProbeResult.ok
        { total_deps := 1, outdated_count := 0,
          updates := [], security_advisories := some [] }) := by decide

/-- C10 amended: the cargo probe's `try` catches only JSON-decode
failures (returning the parse-error result); an entry lacking `"project"`
or `"latest"`, or lacking `"name"` while project and latest differ,
raises a `KeyError` that escapes the probe; an entry lacking only
`"name"` with equal versions is processed without error, and a missing
`"kind"` defaults to `"unknown"`. -/
theorem cargo_keyerror_spec :
    (∀ env : CargoEnv, (run_command env.versionCheck).1 = 0 →
      (run_command env.outdatedRun).1 = 0 → env.jsonResult = none →
      analyze_cargo_deps env =
        Except.ok (ProbeResult.error "Failed to parse cargo outdated output")) ∧
    (∀ (res : EcosystemResult) (dep : CargoDep),
      dep.project = none →
      processCargoDep res dep = Except.error (PyExc.keyError "project")) ∧
    (∀ (res : EcosystemResult) (dep : CargoDep) (p : String),
      dep.project = some p → dep.latest = none →
      processCargoDep res dep = Except.error (PyExc.keyError "latest")) ∧
    (∀ (res : EcosystemResult) (dep : CargoDep) (p l : String),
      dep.project = some p → dep.latest = some l → p ≠ l → dep.name = none →
      processCargoDep res dep = Except.error (PyExc.keyError "name")) ∧
    (∀ (res : EcosystemResult) (dep : CargoDep) (p : String),
      dep.project = some p → dep.latest = some p →
      processCargoDep res dep = Except.ok res) ∧
    (∀ (res : EcosystemResult) (dep : CargoDep) (p l n : String),
      dep.project = some p → dep.latest = some l → dep.name = some n →
      dep.kind = none → p ≠ l →
      processCargoDep res dep = Except.ok
        ⟨res.module_path, res.total_deps, res.outdated_count + 1,
         res.updates ++ [⟨n, p, l, determine_semver_change p l, some "unknown"⟩],
         res.security_advisories⟩) ∧
    (∀ (env : CargoEnv) (dep : CargoDep) (k : String),
      (run_command env.versionCheck).1 = 0 → (run_command env.outdatedRun).1 = 0 →
      env.jsonResult = some ⟨some [dep]⟩ →
      processCargoDep
        { total_deps := 1, outdated_count := 0, updates := [],
          security_advisories := some [] } dep = Except.error (PyExc.keyError k) →
      analyze_cargo_deps env = Except.error (PyExc.keyError k)) := by
  refine ⟨?_, ?_, ?_, ?_, ?_, ?_, ?_⟩
  · intro env h1 h2 hj
    unfold analyze_cargo_deps
    rw [if_neg (by simpa using h1), if_neg (by simpa using h2), hj]
    rfl
  · intro res dep hp
    unfold processCargoDep
    rw [hp]
  · intro res dep p hp hl
    unfold processCargoDep
    rw [hp, hl]
  · intro res dep p l hp hl hpl hn
    unfold processCargoDep
    rw [hp, hl]
    simp [hpl, hn]
  · intro res dep p hp hl
    unfold processCargoDep
    rw [hp, hl]
    simp
  · intro res dep p l n hp hl hn hk hpl
    unfold processCargoDep
    rw [hp, hl]
    simp [hpl, hn, hk]
  · intro env dep k h1 h2 hj hstep
    unfold analyze_cargo_deps
    rw [if_neg (by simpa using h1), if_neg (by simpa using h2), hj]
    simp only [Option.getD]
    rw [List.foldlM_cons] at *
    simp only [List.length_cons, List.length_nil]
    rw [hstep]
    rfl

/-- Witness for the amended C10: each arm at a concrete entry. -/
theorem cargo_keyerror_spec_witness :
    analyze_cargo_deps ⟨.completed 0 "" "", .completed 0 "" "", none⟩ =
      Except.ok (ProbeResult.error "Failed to parse cargo outdated output") ∧
    processCargoDep
      { total_deps := 1, outdated_count := 0, updates := [],
        security_advisories := some [] }
      ⟨some "a", none, some "2.0.0", none⟩ =
        Except.error (PyExc.keyError "project") ∧
    processCargoDep
      { total_deps := 1, outdated_count := 0, updates := [],
        security_advisories := some [] }
      ⟨some "a", some "1.0.0", none, none⟩ =
        Except.error (PyExc.keyError "latest") ∧
    processCargoDep
      { total_deps := 1, outdated_count := 0, updates := [],
        security_advisories := some [] }
      ⟨none, some "1.0.0", some "2.0.0", none⟩ =
        Except.error (PyExc.keyError "name") ∧
    processCargoDep
      { total_deps := 1, outdated_count := 0, updates := [],
        security_advisories := some [] }
      ⟨none, some "1.0.0", some "1.0.0", none⟩ =
        Except.ok { total_deps := 1, outdated_count := 0, updates := [],
                    security_advisories := some [] } ∧
    processCargoDep
      { total_deps := 1, outdated_count := 0, updates := [],
        security_advisories := some [] }
      ⟨some "serde", some "1.0.0", some "2.0.0", none⟩ =
        Except.ok
          ⟨none, 1, 1, [⟨"serde", "1.0.0", "2.0.0", "major", some "unknown"⟩],
           some []⟩ ∧
    analyze_cargo_deps
      ⟨.completed 0 "" "", .completed 0 "" "",
       some ⟨some [⟨none, some "1.0.0", some "2.0.0", none⟩]⟩⟩ =
        Except.error (PyExc.keyError "name") :=
  ⟨cargo_keyerror_spec.1 _ rfl rfl rfl,
   cargo_keyerror_spec.2.1 _ _ rfl,
   cargo_keyerror_spec.2.2.1 _ _ "1.0.0" rfl rfl,
   cargo_keyerror_spec.2.2.2.1 _ _ "1.0.0" "2.0.0" rfl rfl (by decide) rfl,
   cargo_keyerror_spec.2.2.2.2.1 _ _ "1.0.0" rfl rfl,
   cargo_keyerror_spec.2.2.2.2.2.1 _ _ "1.0.0" "2.0.0" "serde" rfl rfl rfl rfl
     (by decide),
   cargo_keyerror_spec.2.2.2.2.2.2 _ ⟨none, some "1.0.0", some "2.0.0", none⟩
     "name" rfl rfl rfl (by decide)⟩
